import Mathlib

/-!
Shallow embedding of `src/devsecops-container-scan/app/app.py`, a Flask
application with three static routes and a `__main__` block that reads the
PORT environment variable and starts the server.

Framework behaviour used by the source (Flask) is embedded as follows:
`jsonify` produces a response with Content-Type `application/json` and
default status 200; a handler returning `(jsonify(...), n)` sets the status
explicitly to `n`; a request whose path matches no registered route gets the
framework's default not-found response (status 404, an HTML error page whose
exact text we model abstractly); a request to a registered route with a
method other than GET gets the framework's 405 response (routes registered
with no `methods` argument accept GET).  Python's `int()` applied to a
string (used on the PORT variable) is embedded faithfully: optional
surrounding whitespace, an optional sign, then decimal digits with single
underscores allowed between digits; anything else raises ValueError.
-/

namespace DevSecOpsApp

/-- A JSON object, as the ordered list of string key/value pairs written in
the Python dict literal. -/
abbrev JsonObj := List (String × String)

/-- What a route handler returns: the dict passed to `jsonify`, and the
status code when the handler sets one explicitly (as `health` does with
`, 200`); `none` means the framework default 200 applies. -/
structure HandlerResult where
  body : JsonObj
  explicitStatus : Option Nat
deriving DecidableEq, Repr

/-- Handler for `@app.route('/')` in app.py. -/
def home : HandlerResult :=
  { body := [("message", "Welcome to DevSecOps Container Security Demo!"),
             ("status", "running"),
             ("version", "1.0.0")],
    explicitStatus := none }

/-- Handler for `@app.route('/health')` in app.py; it alone returns an
explicit status, `jsonify(...), 200`. -/
def health : HandlerResult :=
  { body := [("status", "healthy"),
             ("service", "devsecops-demo")],
    explicitStatus := some 200 }

/-- Handler for `@app.route('/info')` in app.py. -/
def info : HandlerResult :=
  { body := [("app", "DevSecOps Demo Application"),
             ("description", "Sample app for container vulnerability scanning"),
             ("security", "Scanned with Trivy"),
             ("pipeline", "GitHub Actions")],
    explicitStatus := none }

/-- A response body: a JSON object for the three handlers, or the framework's
HTML error page (modelled abstractly by its title text). -/
inductive RespBody
  | json (obj : JsonObj)
  | html (text : String)
deriving DecidableEq, Repr

/-- An HTTP response: status, Content-Type header and body. -/
structure Response where
  status : Nat
  contentType : String
  body : RespBody
deriving DecidableEq, Repr

/-- Turn a handler result into the response Flask sends: `jsonify` sets
Content-Type `application/json`, and the status is the explicit one when
present, 200 by default. -/
def finalize (h : HandlerResult) : Response :=
  { status := h.explicitStatus.getD 200,
    contentType := "application/json",
    body := RespBody.json h.body }

/-- An inbound HTTP request.  The three handlers take no parameters, so
dispatch may only ever look at the method and path. -/
structure Request where
  method : String
  path : String
  headers : List (String × String)
  query : String
  reqBody : String
deriving DecidableEq, Repr

/-- The process state: the three handlers registered on the Flask `app`
object at import time.  The handlers close over no mutable data, so this is
all the state there is. -/
structure ProcessState where
  homeH : HandlerResult
  healthH : HandlerResult
  infoH : HandlerResult
deriving DecidableEq, Repr

/-- The state built at startup by the three `@app.route` registrations. -/
def initState : ProcessState := ⟨home, health, info⟩

/-- The route table of a state: the (path, handler) pairs registered in
app.py, in registration order. -/
def routesOf (s : ProcessState) : List (String × HandlerResult) :=
  [("/", s.homeH), ("/health", s.healthH), ("/info", s.infoH)]

/-- Route lookup: the handler registered for a path, if any. -/
def findRoute (s : ProcessState) (path : String) : Option HandlerResult :=
  ((routesOf s).find? (fun r => r.1 == path)).map (fun r => r.2)

/-- Flask's default not-found response: status 404, an HTML error page. -/
def notFound : Response :=
  { status := 404, contentType := "text/html", body := RespBody.html "404 Not Found" }

/-- Flask's response for a registered path with an unregistered method. -/
def methodNotAllowed : Response :=
  { status := 405, contentType := "text/html", body := RespBody.html "405 Method Not Allowed" }

/-- Handle one request: dispatch over the registered routes, returning the
response together with the process state after the request.  The handlers
mutate nothing, so the state passes through unchanged. -/
def handle (s : ProcessState) (req : Request) : Response × ProcessState :=
  (match findRoute s req.path with
   | some h => if req.method = "GET" then finalize h else methodNotAllowed
   | none => notFound,
   s)

/-- The response the running server gives a request. -/
def dispatch (req : Request) : Response := (handle initState req).1

/-- The process state after handling a whole list of requests in order. -/
def handleAll (s : ProcessState) : List Request → ProcessState
  | [] => s
  | r :: rs => handleAll (handle s r).2 rs

end DevSecOpsApp

namespace DevSecOpsApp

/-! Startup: `port = int(os.environ.get('PORT', 5000))` then
`app.run(host='0.0.0.0', port=port, debug=False)`. -/

/-- Whitespace as stripped by Python's `int()` on strings. -/
def isPySpace (c : Char) : Bool :=
  c == ' ' || c == '\t' || c == '\n' || c == '\r' || c == '\x0b' || c == '\x0c'

/-- Digits of a Python integer literal after the first: decimal digits with
single underscores allowed between digits, accumulating the value. -/
def parseDigitsAux : Nat → List Char → Option Nat
  | acc, [] => some acc
  | acc, '_' :: c :: rest =>
      if c.isDigit then parseDigitsAux (acc * 10 + (c.toNat - 48)) rest else none
  | acc, c :: rest =>
      if c.isDigit then parseDigitsAux (acc * 10 + (c.toNat - 48)) rest else none

/-- A nonempty run of decimal digits (underscore separators allowed after
the first digit), as Python's `int()` requires after the optional sign. -/
def parsePyDigits : List Char → Option Nat
  | [] => none
  | c :: rest => if c.isDigit then parseDigitsAux (c.toNat - 48) rest else none

/-- Python's `int()` applied to a string: strip surrounding whitespace, an
optional sign, then digits; `none` models the ValueError raised otherwise. -/
def pyIntOfString (s : String) : Option Int :=
  let cs := ((s.toList.dropWhile isPySpace).reverse.dropWhile isPySpace).reverse
  match cs with
  | '+' :: rest => (parsePyDigits rest).map (fun n => (n : Int))
  | '-' :: rest => (parsePyDigits rest).map (fun n => -(n : Int))
  | rest => (parsePyDigits rest).map (fun n => (n : Int))

/-- The host/port pair passed to `app.run`. -/
structure ServerConfig where
  host : String
  port : Int
deriving DecidableEq, Repr

/-- How far startup gets: `serve cfg` means execution reached
`app.run(host='0.0.0.0', port=port, debug=False)` with that configuration;
`valueError` means `int()` raised first and the server was never started. -/
inductive StartupOutcome
  | serve (cfg : ServerConfig)
  | valueError
deriving DecidableEq, Repr

/-- `int(os.environ.get('PORT', 5000))`: the PORT variable parsed when set,
the integer default 5000 when unset. -/
def envGetPort (env : Option String) : Option Int :=
  match env with
  | none => some 5000
  | some s => pyIntOfString s

/-- The `__main__` block of app.py as a function of the PORT variable. -/
def startup (env : Option String) : StartupOutcome :=
  match envGetPort env with
  | some p => StartupOutcome.serve ⟨"0.0.0.0", p⟩
  | none => StartupOutcome.valueError

end DevSecOpsApp

namespace DevSecOpsApp

/-- Dispatch inspects only the method and path of a request: the handlers
take no parameters, so headers, query string and body never reach them. -/
theorem dispatch_only_method_path (req : Request) :
    dispatch req = dispatch ⟨req.method, req.path, [], "", ""⟩ := rfl

/-- Claim C1: every GET request to `/` gets status 200 and a body that is
exactly the three-field JSON object of the `home` handler. -/
theorem c1_get_root (req : Request) (hm : req.method = "GET") (hp : req.path = "/") :
    dispatch req =
      { status := 200, contentType := "application/json",
        body := RespBody.json
          [("message", "Welcome to DevSecOps Container Security Demo!"),
           ("status", "running"),
           ("version", "1.0.0")] } := by
  rw [dispatch_only_method_path req, hm, hp]; decide

theorem c1_get_root_witness :
    dispatch ⟨"GET", "/", [("X-Extra", "y")], "a=1", "ignored"⟩ =
      { status := 200, contentType := "application/json",
        body := RespBody.json
          [("message", "Welcome to DevSecOps Container Security Demo!"),
           ("status", "running"),
           ("version", "1.0.0")] } :=
  c1_get_root ⟨"GET", "/", [("X-Extra", "y")], "a=1", "ignored"⟩ rfl rfl

/-- Claim C2: every GET request to `/health` gets status 200 and a body that
is exactly the two-field JSON object of the `health` handler; `health` is
the one handler setting its status explicitly, the other two rely on the
default. -/
theorem c2_get_health (req : Request) (hm : req.method = "GET") (hp : req.path = "/health") :
    dispatch req =
      { status := 200, contentType := "application/json",
        body := RespBody.json
          [("status", "healthy"),
           ("service", "devsecops-demo")] } ∧
    health.explicitStatus = some 200 ∧
    home.explicitStatus = none ∧
    info.explicitStatus = none := by
  refine ⟨?_, rfl, rfl, rfl⟩
  rw [dispatch_only_method_path req, hm, hp]; decide

theorem c2_get_health_witness :
    dispatch ⟨"GET", "/health", [], "", ""⟩ =
      { status := 200, contentType := "application/json",
        body := RespBody.json
          [("status", "healthy"),
           ("service", "devsecops-demo")] } ∧
    health.explicitStatus = some 200 ∧
    home.explicitStatus = none ∧
    info.explicitStatus = none :=
  c2_get_health ⟨"GET", "/health", [], "", ""⟩ rfl rfl

/-- Claim C3: every GET request to `/info` gets status 200 and a body that
is exactly the four-field JSON object of the `info` handler. -/
theorem c3_get_info (req : Request) (hm : req.method = "GET") (hp : req.path = "/info") :
    dispatch req =
      { status := 200, contentType := "application/json",
        body := RespBody.json
          [("app", "DevSecOps Demo Application"),
           ("description", "Sample app for container vulnerability scanning"),
           ("security", "Scanned with Trivy"),
           ("pipeline", "GitHub Actions")] } := by
  rw [dispatch_only_method_path req, hm, hp]; decide

theorem c3_get_info_witness :
    dispatch ⟨"GET", "/info", [], "", ""⟩ =
      { status := 200, contentType := "application/json",
        body := RespBody.json
          [("app", "DevSecOps Demo Application"),
           ("description", "Sample app for container vulnerability scanning"),
           ("security", "Scanned with Trivy"),
           ("pipeline", "GitHub Actions")] } :=
  c3_get_info ⟨"GET", "/info", [], "", ""⟩ rfl rfl

/-- Claim C4: when PORT is set to an integer value the server binds that
port, when it is unset the server binds port 5000, and both bind on all
interfaces (0.0.0.0). -/
theorem c4_port_config (env : Option String) (n : Int)
    (h : (env = none ∧ n = 5000) ∨ (∃ s, env = some s ∧ pyIntOfString s = some n)) :
    startup env = StartupOutcome.serve ⟨"0.0.0.0", n⟩ := by
  rcases h with ⟨he, hn⟩ | ⟨s, he, hs⟩
  · subst he; subst hn; rfl
  · subst he; simp [startup, envGetPort, hs]

theorem c4_port_config_witness :
    ((some "8080" = (none : Option String) ∧ (8080 : Int) = 5000) ∨
      (∃ s, some "8080" = some s ∧ pyIntOfString s = some 8080)) ∧
    startup (some "8080") = StartupOutcome.serve ⟨"0.0.0.0", 8080⟩ :=
  ⟨Or.inr ⟨"8080", rfl, by decide⟩,
   c4_port_config (some "8080") 8080 (Or.inr ⟨"8080", rfl, by decide⟩)⟩

end DevSecOpsApp

namespace DevSecOpsApp

/-- Claim C5: a request to any path other than the three registered ones
finds no handler in the route table and gets the framework's default
not-found response, whose status is 404. -/
theorem c5_unknown_path (req : Request)
    (h1 : req.path ≠ "/") (h2 : req.path ≠ "/health") (h3 : req.path ≠ "/info") :
    findRoute initState req.path = none ∧ dispatch req = notFound ∧ notFound.status = 404 := by
  have e1 : (("/" : String) == req.path) = false :=
    beq_eq_false_iff_ne.mpr (fun h => h1 h.symm)
  have e2 : (("/health" : String) == req.path) = false :=
    beq_eq_false_iff_ne.mpr (fun h => h2 h.symm)
  have e3 : (("/info" : String) == req.path) = false :=
    beq_eq_false_iff_ne.mpr (fun h => h3 h.symm)
  have hf : findRoute initState req.path = none := by
    simp [findRoute, routesOf, initState, List.find?, e1, e2, e3]
  exact ⟨hf, by simp [dispatch, handle, hf], rfl⟩

theorem c5_unknown_path_witness :
    findRoute initState "/nope" = none ∧
    dispatch ⟨"GET", "/nope", [], "", ""⟩ = notFound ∧
    notFound.status = 404 :=
  c5_unknown_path ⟨"GET", "/nope", [], "", ""⟩ (by decide) (by decide) (by decide)

/-- Claim C6: handlers are independent of request contents: two GET requests
to the same defined route get identical responses whatever their headers,
query strings or bodies. -/
theorem c6_handler_purity (r1 r2 : Request)
    (hd : r1.path = "/" ∨ r1.path = "/health" ∨ r1.path = "/info")
    (h1 : r1.method = "GET") (h2 : r2.method = "GET") (hp : r1.path = r2.path) :
    dispatch r1 = dispatch r2 := by
  rw [dispatch_only_method_path r1, dispatch_only_method_path r2, h1, h2, hp]

theorem c6_handler_purity_witness :
    dispatch ⟨"GET", "/health", [("Cookie", "secret")], "q=1", "body one"⟩ =
    dispatch ⟨"GET", "/health", [], "", "another body"⟩ :=
  c6_handler_purity
    ⟨"GET", "/health", [("Cookie", "secret")], "q=1", "body one"⟩
    ⟨"GET", "/health", [], "", "another body"⟩
    (Or.inr (Or.inl rfl)) rfl rfl rfl

/-- Claim C8: for GET requests to each of the three defined routes, the
response Content-Type header is application/json. -/
theorem c8_content_type (req : Request) (hm : req.method = "GET")
    (hd : req.path = "/" ∨ req.path = "/health" ∨ req.path = "/info") :
    (dispatch req).contentType = "application/json" := by
  rw [dispatch_only_method_path req, hm]
  rcases hd with hp | hp | hp <;> rw [hp] <;> decide

theorem c8_content_type_witness :
    (dispatch ⟨"GET", "/info", [], "", ""⟩).contentType = "application/json" :=
  c8_content_type ⟨"GET", "/info", [], "", ""⟩ rfl (Or.inr (Or.inr rfl))

/-- Claim C9: handling a request has no effect on process state: every
single invocation returns the state unchanged, and after any sequence of
requests the state is still exactly the one defined at startup. -/
theorem c9_no_side_effects :
    (∀ (s : ProcessState) (req : Request), (handle s req).2 = s) ∧
    (∀ reqs : List Request, handleAll initState reqs = initState) := by
  have hstep : ∀ (s : ProcessState) (req : Request), (handle s req).2 = s :=
    fun _ _ => rfl
  have hall : ∀ (reqs : List Request) (s : ProcessState), handleAll s reqs = s := by
    intro reqs
    induction reqs with
    | nil => intro s; rfl
    | cons r rs ih => intro s; rw [handleAll, hstep s r]; exact ih s
  exact ⟨hstep, fun reqs => hall reqs initState⟩

/-- Claim C10: PORT set to a string that is not a valid integer makes
startup raise during the `int()` conversion, before any bind attempt; the
server is never started. -/
theorem c10_invalid_port (s : String) (h : pyIntOfString s = none) :
    startup (some s) = StartupOutcome.valueError := by
  simp [startup, envGetPort, h]

theorem c10_invalid_port_witness :
    pyIntOfString "abc" = none ∧
    startup (some "abc") = StartupOutcome.valueError :=
  ⟨by decide, c10_invalid_port "abc" (by decide)⟩

end DevSecOpsApp
